import Mathlib

/-!
Shallow embedding of the type-B editor core (the `Index` component in the
repository's main source file, together with the `ControlPanel` slider
surface).  The component's `useState` hooks become fields of `EditorState`;
each event handler becomes a pure state-transition function; the
sessionStorage content key becomes the `store` field (an `Option String`);
the debounced autosave timer becomes an explicit `deadline` field driven by
a timed event interpreter.
-/

namespace TypeB

/-- Size ceiling in bytes (5 MiB), from the source constant MAX_FILE_SIZE. -/
def MAX_FILE_SIZE : Nat := 5 * 1024 * 1024

/-- Debounce delay in milliseconds, from the source constant AUTO_SAVE_DELAY. -/
def AUTO_SAVE_DELAY : Nat := 3000

/-- Settings record, from the EditorSettings interface. -/
structure EditorSettings where
  fontSize : Nat
  isDarkMode : Bool
  showWordCount : Bool
  showCountDisplay : Bool
  currentFilename : String
  leftMargin : Nat
  rightMargin : Nat
  deriving DecidableEq, Repr

/-- Default settings, from the useState initializer for `settings`. -/
def defaultSettings : EditorSettings :=
  { fontSize := 16
    isDarkMode := true
    showWordCount := true
    showCountDisplay := true
    currentFilename := "document.txt"
    leftMargin := 72
    rightMargin := 72 }

/-- The only pending destructive action ever stored by the code is the
document-reset closure built inside handleNew. -/
inductive PendingAction where
  | reset
  deriving DecidableEq, Repr

/-- Component state: one field per `useState` hook relevant to the document
lifecycle, plus `store`, the sessionStorage content key (STORAGE_KEY), which
the handlers read and write.  Presentation-only state (drag highlight, gear
pulse, control-panel visibility, cursor pixel coordinates) is outside the
modelled slice. -/
structure EditorState where
  content : String
  welcomeText : String
  showWelcome : Bool
  cursorPosition : Nat
  isSaved : Bool
  isAutoSaving : Bool
  autoSaveEnabled : Bool
  showSaveDialog : Bool
  showUnsavedDialog : Bool
  saveFilename : String
  pendingAction : Option PendingAction
  settings : EditorSettings
  store : Option String
  deriving DecidableEq, Repr

/-- Initial state of a fresh session (all useState initializers, empty
sessionStorage). -/
def initState : EditorState :=
  { content := ""
    welcomeText := ""
    showWelcome := true
    cursorPosition := 0
    isSaved := true
    isAutoSaving := false
    autoSaveEnabled := true
    showSaveDialog := false
    showUnsavedDialog := false
    saveFilename := "document.txt"
    pendingAction := none
    settings := defaultSettings
    store := none }

/-- Byte size of the content as computed by the source via
`new Blob([content]).size`, which is the UTF-8 byte count. -/
def blobSize (s : String) : Nat := s.utf8ByteSize

/-- The autoSave routine (source function `autoSave`), instrumented with the
list of values written to the store during the call.  `writeOk` models
whether `sessionStorage.setItem` succeeds or throws (the try/catch).
Mirrors the source line by line: early return when autosave is disabled or
the content is empty; oversize content disables autosave and returns without
writing; otherwise the content is written and the saved flag set, and on a
write failure the catch block only clears the saving indicator. -/
def autoSaveLog (writeOk : Bool) (s : EditorState) : EditorState × List String :=
  if ¬ s.autoSaveEnabled ∨ s.content.length = 0 then (s, [])
  else if blobSize s.content > MAX_FILE_SIZE then
    ({ s with autoSaveEnabled := false }, [])
  else if writeOk then
    ({ s with isAutoSaving := true, store := some s.content, isSaved := true },
      [s.content])
  else
    ({ s with isAutoSaving := false }, [])

/-- The autoSave routine's effect on the state alone. -/
def autoSaveWith (writeOk : Bool) (s : EditorState) : EditorState :=
  (autoSaveLog writeOk s).1

/-- The autoSave routine when the store write succeeds. -/
def autoSave (s : EditorState) : EditorState := autoSaveWith true s

/-- The handleChange handler: a textarea input event carrying the new value
and the cursor position.  Dismisses the welcome overlay, replaces the
content, and marks the document dirty. -/
def handleChange (txt : String) (pos : Nat) (s : EditorState) : EditorState :=
  let s1 := if s.showWelcome then { s with showWelcome := false, welcomeText := "" } else s
  { s1 with content := txt, cursorPosition := pos, isSaved := false }

/-- The Tab branch of the handleKeyDown handler: inserts a two-space indent
over the selection [start, stop) and moves the cursor.  (JS
`substring(0, start)` and `substring(end)` clamp, as `String.take` and
`String.drop` do.) -/
def handleTab (start stop : Nat) (s : EditorState) : EditorState :=
  { s with
    content := s.content.take start ++ "  " ++ s.content.drop stop
    cursorPosition := start + 2 }

/-- The document-reset block shared by both branches of handleNew and by the
pending action stored for the unsaved-changes dialog: clears content,
restores the welcome overlay, marks saved, resets the filename, and removes
the content key from the store. -/
def resetDoc (s : EditorState) : EditorState :=
  { s with
    content := ""
    showWelcome := true
    welcomeText := ""
    isSaved := true
    settings := { s.settings with currentFilename := "document.txt" }
    store := none }

/-- The handleNew handler: when the document is dirty and non-empty it stores
the reset as a pending action and opens the unsaved-changes dialog; otherwise
it resets immediately. -/
def handleNew (s : EditorState) : EditorState :=
  if ¬ s.isSaved ∧ 0 < s.content.length then
    { s with pendingAction := some PendingAction.reset, showUnsavedDialog := true }
  else
    resetDoc s

/-- File object handed to the core by the file picker or drag-drop: its
`name`, its `size` in bytes as reported by the browser, its MIME `type`, and
the text that a successful FileReader read yields. -/
structure FileObj where
  name : String
  size : Nat
  type : String
  content : String
  deriving DecidableEq, Repr

/-- The readFile function.  `readOk` models whether the FileReader read
succeeds (onload) or fails (onerror).  The Bool in the result records
whether the blocking oversize alert fired.  Oversize files are rejected
before any read; a successful read replaces the document wholesale and
persists it immediately; a failed read only logs. -/
def readFile (f : FileObj) (readOk : Bool) (s : EditorState) : EditorState × Bool :=
  if f.size > MAX_FILE_SIZE then (s, true)
  else if readOk then
    ({ s with
        content := f.content
        showWelcome := false
        isSaved := true
        settings := { s.settings with currentFilename := f.name }
        store := some f.content }, false)
  else (s, false)

/-- The handleDrop handler: picks the first dropped file whose type or
extension is plain text or Markdown and feeds it to readFile; other drops
are ignored. -/
def handleDrop (files : List FileObj) (readOk : Bool) (s : EditorState) :
    EditorState × Bool :=
  match files.find? (fun f =>
      f.type == "text/plain" || f.name.endsWith ".txt" || f.name.endsWith ".md") with
  | some f => readFile f readOk s
  | none => (s, false)

/-- The handleSaveAs handler: seeds the save dialog with the current
filename and opens it. -/
def handleSaveAs (s : EditorState) : EditorState :=
  { s with saveFilename := s.settings.currentFilename, showSaveDialog := true }

/-- The downloadFile function (Save-As confirmation): triggers the
blob/anchor download (external, no observable return), closes the dialog,
marks the document saved, and adopts the chosen filename.  Note that it does
not touch the sessionStorage content key. -/
def downloadFile (s : EditorState) : EditorState :=
  { s with
    showSaveDialog := false
    isSaved := true
    settings := { s.settings with currentFilename := s.saveFilename } }

/-- Run the stored pending action, if any, and clear it — the shared body of
both dialog buttons' pendingAction blocks. -/
def runPending (s : EditorState) : EditorState :=
  match s.pendingAction with
  | some PendingAction.reset => { (resetDoc s) with pendingAction := none }
  | none => s

/-- The unsaved-changes dialog's Cancel button: runs the pending action
without saving; closing the dialog clears its open flag. -/
def resolveDiscard (s : EditorState) : EditorState :=
  { (runPending s) with showUnsavedDialog := false }

/-- The unsaved-changes dialog's Save action: runs autoSave, then (after a
short timeout) the pending action; closing the dialog clears its open flag. -/
def resolveSave (writeOk : Bool) (s : EditorState) : EditorState :=
  { (runPending (autoSaveWith writeOk s)) with showUnsavedDialog := false }

/-- Every state-transition the component performs on `EditorState`. -/
inductive Op where
  | change (txt : String) (pos : Nat)
  | tab (start stop : Nat)
  | newDoc
  | openFile (f : FileObj) (readOk : Bool)
  | dropFiles (files : List FileObj) (readOk : Bool)
  | saveAs
  | download
  | save (writeOk : Bool)
  | discard
  | saveAndProceed (writeOk : Bool)
  deriving DecidableEq, Repr

/-- Dispatch of an operation to its handler. -/
def step (op : Op) (s : EditorState) : EditorState :=
  match op with
  | Op.change txt pos => handleChange txt pos s
  | Op.tab start stop => handleTab start stop s
  | Op.newDoc => handleNew s
  | Op.openFile f readOk => (readFile f readOk s).1
  | Op.dropFiles files readOk => (handleDrop files readOk s).1
  | Op.saveAs => handleSaveAs s
  | Op.download => downloadFile s
  | Op.save writeOk => autoSaveWith writeOk s
  | Op.discard => resolveDiscard s
  | Op.saveAndProceed writeOk => resolveSave writeOk s

/-- Component state paired with the autosave timer: `deadline` is the fire
time of the pending `setTimeout` held in autoSaveTimerRef, or `none` when no
timer is pending.  A single ref holds at most one timer handle. -/
structure TimedState where
  es : EditorState
  deadline : Option Nat
  deriving DecidableEq, Repr

/-- Initial timed state of a fresh session: no timer pending. -/
def initTimed : TimedState := { es := initState, deadline := none }

/-- The auto-save timer effect, re-run after each state change: it first
clears any pending timer, then arms a fresh one for `now + AUTO_SAVE_DELAY`
exactly when the document is dirty and non-empty. -/
def armTimer (now : Nat) (t : TimedState) : TimedState :=
  if ¬ t.es.isSaved ∧ 0 < t.es.content.length then
    { t with deadline := some (now + AUTO_SAVE_DELAY) }
  else
    { t with deadline := none }

/-- A document mutation at time `now`: run handleChange, then — if the state
actually changed (React re-renders only then) — re-run the timer effect. -/
def timedMutate (now : Nat) (txt : String) (pos : Nat) (t : TimedState) :
    TimedState :=
  let es1 := handleChange txt pos t.es
  if es1 = t.es then t else armTimer now { t with es := es1 }

/-- The pending timer fires at time `now`: the timer is consumed, autoSave
runs, and — if the state changed — the timer effect re-runs. -/
def fireTimer (now : Nat) (t : TimedState) : TimedState × List String :=
  let p := autoSaveLog true t.es
  let t1 : TimedState := { es := p.1, deadline := none }
  (if p.1 = t.es then t1 else armTimer now t1, p.2)

/-- Before handling an event at time `now`, fire the pending timer if its
deadline has passed. -/
def maybeFire (now : Nat) (t : TimedState) : TimedState × List String :=
  match t.deadline with
  | some d => if d ≤ now then fireTimer d t else (t, [])
  | none => (t, [])

/-- Let any still-pending timer fire after the last event. -/
def flushTimer (t : TimedState) : TimedState × List String :=
  match t.deadline with
  | some d => fireTimer d t
  | none => (t, [])

/-- A mutation event: its time, the new text, the new cursor position. -/
abbrev MutEvent := Nat × String × Nat

/-- Interpret a time-ordered list of mutation events, collecting every store
write that occurs. -/
def runMuts : List MutEvent → TimedState → TimedState × List String
  | [], t => (t, [])
  | (tm, txt, pos) :: rest, t =>
    let p1 := maybeFire tm t
    let t2 := timedMutate tm txt pos p1.1
    let p2 := runMuts rest t2
    (p2.1, p1.2 ++ p2.2)

/-- Well-formed continuation of a mutation sequence whose previous event was
at time `tPrev` with text `txtPrev`: each event follows the previous one by
less than the debounce delay, and actually changes the text. -/
def MutSeq : Nat → String → List MutEvent → Prop
  | _, _, [] => True
  | tPrev, txtPrev, (tm, txt, _) :: rest =>
    tPrev ≤ tm ∧ tm < tPrev + AUTO_SAVE_DELAY ∧ txt ≠ txtPrev ∧ MutSeq tm txt rest

instance instDecidableMutSeq :
    (tPrev : Nat) → (txtPrev : String) → (evs : List MutEvent) →
    Decidable (MutSeq tPrev txtPrev evs)
  | _, _, [] => isTrue trivial
  | tPrev, txtPrev, (tm, txt, _) :: rest =>
    haveI : Decidable (MutSeq tm txt rest) := instDecidableMutSeq tm txt rest
    inferInstanceAs (Decidable
      (tPrev ≤ tm ∧ tm < tPrev + AUTO_SAVE_DELAY ∧ txt ≠ txtPrev ∧
        MutSeq tm txt rest))

/-- The text of the last event in the sequence (default for the empty list). -/
def lastTxt (e : MutEvent) (evs : List MutEvent) : String :=
  (evs.getLastD e).2.1

/-- Settings as rebuilt at session start from a previously persisted blob:
the spread of the parsed record over the defaults, field by field (a full
record, since the settings effect always stringifies the whole record). -/
def loadSettings (parsed : EditorSettings) : EditorSettings :=
  { fontSize := parsed.fontSize
    isDarkMode := parsed.isDarkMode
    showWordCount := parsed.showWordCount
    showCountDisplay := parsed.showCountDisplay
    currentFilename := parsed.currentFilename
    leftMargin := parsed.leftMargin
    rightMargin := parsed.rightMargin }

/-- Settings states reachable in a session: the defaults; reloading a
previously persisted settings record; each ControlPanel mutation, where the
slider values carry the min/max/step bounds the panel passes to the Slider
control (font 12–24 step 1, margins 0–200 step 4); the toggle switches; and
the filename updates performed by the file operations. -/
inductive SettingsReachable : EditorSettings → Prop where
  | init : SettingsReachable defaultSettings
  | load (s : EditorSettings) : SettingsReachable s →
      SettingsReachable (loadSettings s)
  | fontSize (s : EditorSettings) (v : Nat) : SettingsReachable s →
      12 ≤ v → v ≤ 24 → SettingsReachable { s with fontSize := v }
  | themeToggle (s : EditorSettings) : SettingsReachable s →
      SettingsReachable { s with isDarkMode := !s.isDarkMode }
  | wordCountToggle (s : EditorSettings) : SettingsReachable s →
      SettingsReachable { s with showWordCount := !s.showWordCount }
  | countDisplayToggle (s : EditorSettings) : SettingsReachable s →
      SettingsReachable { s with showCountDisplay := !s.showCountDisplay }
  | leftMargin (s : EditorSettings) (v : Nat) : SettingsReachable s →
      v ≤ 200 → 4 ∣ v → SettingsReachable { s with leftMargin := v }
  | rightMargin (s : EditorSettings) (v : Nat) : SettingsReachable s →
      v ≤ 200 → 4 ∣ v → SettingsReachable { s with rightMargin := v }
  | filename (s : EditorSettings) (name : String) : SettingsReachable s →
      SettingsReachable { s with currentFilename := name }

/-! Helper lemmas -/

/-- A string of length zero is the empty string. -/
theorem string_length_eq_zero_iff (s : String) : s.length = 0 ↔ s = "" := by
  constructor
  · intro h
    cases s with
    | mk data =>
      cases data with
      | nil => rfl
      | cons c cs => simp [String.length] at h
  · intro h
    subst h
    rfl

/-- The byte size of a string of `n` copies of the character a is `n`. -/
theorem blobSize_replicate (n : Nat) :
    blobSize (String.mk (List.replicate n 'a')) = n := by
  simp [blobSize, String.utf8ByteSize]
  induction n with
  | zero => simp
  | succ k ih =>
    simp [List.replicate, ih]
    decide

/-! Claim theorems -/

/-- C6: for every file object whose size exceeds the 5 MiB ceiling, Open
(file picker or drag-drop path, both of which go through readFile) raises
the blocking alert and aborts with no state mutated: the returned state is
exactly the input state, so text, filename, dirty flag, Welcome state, and
the ephemeral store are all unchanged. -/
theorem oversize_open_rejected (f : FileObj) (readOk : Bool) (s : EditorState)
    (hbig : f.size > MAX_FILE_SIZE) :
    readFile f readOk s = (s, true) := by
  simp [readFile, hbig]

/-- Witness for C6: a 5 MiB + 1 byte file is rejected unchanged from the
initial state, with the alert raised. -/
theorem oversize_open_rejected_witness :
    (⟨"big.txt", 5242881, "text/plain", "x"⟩ : FileObj).size > MAX_FILE_SIZE ∧
    readFile ⟨"big.txt", 5242881, "text/plain", "x"⟩ true initState =
      (initState, true) :=
  ⟨by decide, oversize_open_rejected _ true initState (by decide)⟩

/-- C7: for every accepted file (size at most 5 MiB) whose read completes
successfully, Open replaces the document wholesale: text becomes the file
content, the filename becomes the file name, the Welcome state is cleared,
the document is marked clean, and the content is persisted to the store
immediately, with no alert. -/
theorem open_replaces_document (f : FileObj) (s : EditorState)
    (hsize : f.size ≤ MAX_FILE_SIZE) :
    readFile f true s =
      ({ s with
          content := f.content
          showWelcome := false
          isSaved := true
          settings := { s.settings with currentFilename := f.name }
          store := some f.content }, false) := by
  simp [readFile, Nat.not_lt.mpr hsize]

/-- Witness for C7, the spec's end-to-end scenario 3: loading notes.md with
content "# Title" yields that filename, that text, a clean document, and the
content persisted. -/
theorem open_replaces_document_witness :
    (⟨"notes.md", 7, "text/plain", "# Title"⟩ : FileObj).size ≤ MAX_FILE_SIZE ∧
    readFile ⟨"notes.md", 7, "text/plain", "# Title"⟩ true initState =
      ({ initState with
          content := "# Title"
          showWelcome := false
          isSaved := true
          settings := { initState.settings with currentFilename := "notes.md" }
          store := some "# Title" }, false) :=
  ⟨by decide, open_replaces_document _ initState (by decide)⟩

/-- C8: when the store write throws during a save attempt (on in-range,
non-empty content), the failure is caught: the dirty flag, the store, the
content and the enabled flag are all left unchanged (only the transient
saving indicator is cleared), and a later save attempt on the resulting
state does write the content to the store. -/
theorem store_write_failure_retry (s : EditorState)
    (hen : s.autoSaveEnabled = true) (hne : ¬ s.content.length = 0)
    (hsize : ¬ blobSize s.content > MAX_FILE_SIZE) :
    autoSaveWith false s = { s with isAutoSaving := false } ∧
    (autoSaveWith false s).isSaved = s.isSaved ∧
    (autoSaveWith false s).store = s.store ∧
    (autoSave (autoSaveWith false s)).store = some s.content ∧
    (autoSave (autoSaveWith false s)).isSaved = true := by
  have h1 : autoSaveWith false s = { s with isAutoSaving := false } := by
    simp [autoSaveWith, autoSaveLog, hen, hne, hsize]
  refine ⟨h1, by rw [h1], by rw [h1], ?_, ?_⟩ <;>
    simp [h1, autoSave, autoSaveWith, autoSaveLog, hen, hne, hsize]

/-- Witness for C8: a failed write on a dirty "hello" document leaves it
dirty and unpersisted, and the retry persists it. -/
theorem store_write_failure_retry_witness :
    (¬ (handleChange "hello" 5 initState).content.length = 0) ∧
    (¬ blobSize (handleChange "hello" 5 initState).content > MAX_FILE_SIZE) ∧
    (autoSaveWith false (handleChange "hello" 5 initState)).isSaved = false ∧
    (autoSave (autoSaveWith false (handleChange "hello" 5 initState))).store =
      some "hello" :=
  have h := store_write_failure_retry (handleChange "hello" 5 initState)
    (by decide) (by decide) (by decide)
  ⟨by decide, by decide, by rw [h.2.1]; decide, h.2.2.2.1.trans (by decide)⟩

/-- C10: when the text is empty, a save attempt is a no-op — the state is
returned unchanged (so the dirty flag keeps its value) and nothing is
written to the store — and the debounced timer path never arms a timer for
an empty document. -/
theorem empty_content_save_noop (s : EditorState) (writeOk : Bool)
    (t : TimedState) (now : Nat)
    (hs : s.content = "") (ht : t.es.content = "") :
    autoSaveLog writeOk s = (s, []) ∧ (armTimer now t).deadline = none := by
  constructor
  · simp [autoSaveLog, hs]
  · simp [armTimer, ht]

/-- Witness for C10: an emptied dirty document (type "x", then erase it) is
neither marked clean nor persisted by a save attempt, and no timer is armed
for it. -/
theorem empty_content_save_noop_witness :
    (handleChange "" 0 (handleChange "x" 1 initState)).content = "" ∧
    autoSaveLog true (handleChange "" 0 (handleChange "x" 1 initState)) =
      (handleChange "" 0 (handleChange "x" 1 initState), []) ∧
    (armTimer 0 ⟨handleChange "" 0 (handleChange "x" 1 initState), none⟩).deadline
      = none :=
  have h := empty_content_save_noop
    (handleChange "" 0 (handleChange "x" 1 initState)) true
    ⟨handleChange "" 0 (handleChange "x" 1 initState), none⟩ 0
    (by decide) (by decide)
  ⟨by decide, h.1, h.2⟩

/-- Auxiliary concrete state for C4: a clean two-character document obtained
by loading a file. -/
def tabCleanState : EditorState :=
  (readFile ⟨"a.txt", 2, "text/plain", "ab"⟩ true initState).1

/-- C4 (code bug): the Tab branch of handleKeyDown mutates the text (it
inserts the two-space indent) but leaves the saved flag untouched, so on a
clean document the dirty flag stays false immediately after this text
mutation, contradicting the claim that dirty is true immediately after any
text mutation including Tab-key indent insertion. -/
theorem tab_mutation_leaves_clean :
    tabCleanState.isSaved = true ∧
    (handleTab 0 0 tabCleanState).content = "  ab" ∧
    (handleTab 0 0 tabCleanState).content ≠ tabCleanState.content ∧
    (handleTab 0 0 tabCleanState).isSaved = true := by
  decide

/-- Auxiliary concrete state for C1: a dirty, non-empty document. -/
def dirtyDraftState : EditorState := handleChange "draft" 5 initState

/-- C1 (counterexample): on a dirty, non-empty document, the Open flow
(readFile, reached from the file picker or drag-drop) replaces the content —
a destructive mutation — while the confirmation path is never invoked: the
unsaved-changes dialog is closed and no pending action is stored, before and
after. -/
theorem open_replaces_without_confirmation :
    dirtyDraftState.isSaved = false ∧
    dirtyDraftState.content ≠ "" ∧
    dirtyDraftState.showUnsavedDialog = false ∧
    dirtyDraftState.pendingAction = none ∧
    (readFile ⟨"notes.txt", 5, "text/plain", "other"⟩ true dirtyDraftState).1.content
      = "other" ∧
    (readFile ⟨"notes.txt", 5, "text/plain", "other"⟩ true dirtyDraftState).1.showUnsavedDialog
      = false ∧
    (readFile ⟨"notes.txt", 5, "text/plain", "other"⟩ true dirtyDraftState).1.pendingAction
      = none := by
  decide

/-- C1 (amended): on a dirty, non-empty document, New stores the pending
reset and opens the confirmation dialog exactly once, mutating nothing else;
New on an empty document performs the reset directly with no confirmation
(the dialog flag and pending action are untouched); and the pending reset is
invoked only when the user resolves the prompt (here: the discard
resolution).  Open, by contrast, replaces the document without confirmation
(see the counterexample). -/
theorem new_confirmation_guard (s : EditorState) :
    (s.isSaved = false → 0 < s.content.length →
      handleNew s =
        { s with pendingAction := some PendingAction.reset, showUnsavedDialog := true }) ∧
    (s.content.length = 0 →
      handleNew s = resetDoc s ∧
      (resetDoc s).showUnsavedDialog = s.showUnsavedDialog ∧
      (resetDoc s).pendingAction = s.pendingAction) ∧
    (∀ s' : EditorState, s'.pendingAction = some PendingAction.reset →
      resolveDiscard s' =
        { (resetDoc s') with pendingAction := none, showUnsavedDialog := false }) := by
  refine ⟨?_, ?_, ?_⟩
  · intro h1 h2
    simp [handleNew, h1, h2]
  · intro h0
    refine ⟨?_, ?_, ?_⟩
    · simp [handleNew, h0]
    · simp [resetDoc]
    · simp [resetDoc]
  · intro s' h
    simp [resolveDiscard, runPending, h]

/-- Witness for C1: typing "x" into a fresh session then invoking New opens
the confirmation dialog and stores the pending reset; New on the fresh
(empty) session resets directly. -/
theorem new_confirmation_guard_witness :
    handleNew (handleChange "x" 1 initState) =
      { handleChange "x" 1 initState with
          pendingAction := some PendingAction.reset
          showUnsavedDialog := true } ∧
    handleNew initState = resetDoc initState :=
  ⟨(new_confirmation_guard (handleChange "x" 1 initState)).1 (by decide) (by decide),
   ((new_confirmation_guard initState).2.1 (by decide)).1⟩

/-- Auxiliary concrete state for C5: a dirty "hello" document with the
Save-As dialog open and nothing yet persisted. -/
def saveAsHelloState : EditorState := handleSaveAs (handleChange "hello" 5 initState)

/-- C5 (counterexample): confirming Save-As (downloadFile) sets the dirty
flag to false while leaving the ephemeral store untouched, so the state it
produces has dirty = false and yet its text differs from the persisted
snapshot (there is none). -/
theorem save_as_store_mismatch :
    (downloadFile saveAsHelloState).isSaved = true ∧
    (downloadFile saveAsHelloState).content = "hello" ∧
    (downloadFile saveAsHelloState).store = none ∧
    (downloadFile saveAsHelloState).store ≠
      some (downloadFile saveAsHelloState).content := by
  decide

/-- C5 (amended): the operations that both clear the dirty flag and write
the store — a successful autosave or explicit save on in-range non-empty
content, and a successful Open — leave the persisted snapshot equal to the
current text; Save-As (downloadFile) clears the dirty flag but leaves the
ephemeral store and the text unchanged, persisting via download instead, so
dirty = false does not imply that the snapshot equals the text. -/
theorem clean_ops_persistence (s : EditorState) (f : FileObj)
    (hen : s.autoSaveEnabled = true) (hne : ¬ s.content.length = 0)
    (hsize : ¬ blobSize s.content > MAX_FILE_SIZE)
    (hf : f.size ≤ MAX_FILE_SIZE) :
    ((autoSave s).store = some (autoSave s).content ∧ (autoSave s).isSaved = true) ∧
    ((readFile f true s).1.store = some (readFile f true s).1.content ∧
      (readFile f true s).1.isSaved = true) ∧
    ((downloadFile s).isSaved = true ∧ (downloadFile s).store = s.store ∧
      (downloadFile s).content = s.content) := by
  refine ⟨?_, ?_, ?_⟩
  · simp [autoSave, autoSaveWith, autoSaveLog, hen, hne, hsize]
  · simp [readFile, Nat.not_lt.mpr hf]
  · simp [downloadFile]

/-- Witness for C5 (amended), on a dirty "hi" document and a small file. -/
theorem clean_ops_persistence_witness :
    (autoSave (handleChange "hi" 2 initState)).store =
      some (autoSave (handleChange "hi" 2 initState)).content ∧
    (readFile ⟨"a.md", 1, "text/plain", "b"⟩ true
        (handleChange "hi" 2 initState)).1.store =
      some (readFile ⟨"a.md", 1, "text/plain", "b"⟩ true
        (handleChange "hi" 2 initState)).1.content ∧
    (downloadFile (handleChange "hi" 2 initState)).store =
      (handleChange "hi" 2 initState).store :=
  have h := clean_ops_persistence (handleChange "hi" 2 initState)
    ⟨"a.md", 1, "text/plain", "b"⟩ (by decide) (by decide) (by decide) (by decide)
  ⟨h.1.1, h.2.1.1, h.2.2.2.1⟩

/-- With autosave disabled, a save attempt returns the state unchanged and
writes nothing (the routine's first early return). -/
theorem disabled_autosave_noop (writeOk : Bool) (s : EditorState)
    (h : s.autoSaveEnabled = false) : autoSaveLog writeOk s = (s, []) := by
  simp [autoSaveLog, h]

/-- No operation of the component re-enables autosave: once the flag is
false it stays false across every handler. -/
theorem step_preserves_disabled (op : Op) (s : EditorState)
    (h : s.autoSaveEnabled = false) : (step op s).autoSaveEnabled = false := by
  cases op with
  | change txt pos =>
    by_cases hw : s.showWelcome <;> simp [step, handleChange, hw, h]
  | tab a b => simp [step, handleTab, h]
  | newDoc =>
    simp only [step, handleNew]
    split <;> simp [resetDoc, h]
  | openFile f readOk =>
    simp only [step, readFile]
    split
    · exact h
    · split <;> simp [h]
  | dropFiles files readOk =>
    simp only [step, handleDrop]
    split
    · simp only [readFile]
      split
      · exact h
      · split <;> simp [h]
    · exact h
  | saveAs => simp [step, handleSaveAs, h]
  | download => simp [step, downloadFile, h]
  | save writeOk =>
    simp [step, autoSaveWith, disabled_autosave_noop writeOk s h, h]
  | discard =>
    simp only [step, resolveDiscard, runPending]
    split <;> simp [resetDoc, h]
  | saveAndProceed writeOk =>
    have hs : autoSaveWith writeOk s = s := by
      simp [autoSaveWith, disabled_autosave_noop writeOk s h]
    simp only [step, resolveSave, hs, runPending]
    split <;> simp [resetDoc, h]

/-- C2: a save attempt on content whose byte size exceeds the 5 MiB ceiling
writes nothing to the store and leaves the autosave-enabled flag false; the
disabled flag is sticky — no handler of the component ever sets it back to
true — and while it is false every further save attempt returns the state
unchanged and writes nothing, whatever the content then is. -/
theorem oversize_autosave_sticky_disable (s : EditorState) (writeOk : Bool)
    (op : Op) (hbig : blobSize s.content > MAX_FILE_SIZE) :
    ((autoSaveLog writeOk s).2 = [] ∧
      (autoSaveWith writeOk s).store = s.store ∧
      (autoSaveWith writeOk s).autoSaveEnabled = false) ∧
    (∀ s' : EditorState, s'.autoSaveEnabled = false →
      (step op s').autoSaveEnabled = false ∧
      ∀ ok : Bool, autoSaveLog ok s' = (s', [])) := by
  constructor
  · have hlen : ¬ s.content.length = 0 := by
      intro h0
      rw [(string_length_eq_zero_iff s.content).mp h0] at hbig
      exact absurd hbig (by decide)
    by_cases hen : s.autoSaveEnabled
    · simp [autoSaveLog, autoSaveWith, hen, hlen, hbig]
    · have hf : s.autoSaveEnabled = false := by
        cases he : s.autoSaveEnabled
        · rfl
        · exact absurd he hen
      simp [autoSaveWith, disabled_autosave_noop writeOk s hf, hf]
  · intro s' h
    exact ⟨step_preserves_disabled op s' h, fun ok => disabled_autosave_noop ok s' h⟩

/-- Witness for C2: content of 5 MiB + 1 bytes (that many copies of the
character a) disables autosave without a write; a subsequent mutation keeps
the flag down and a save attempt on shrunk content still writes nothing. -/
theorem oversize_autosave_sticky_disable_witness :
    blobSize ({ initState with
        content := String.mk (List.replicate (MAX_FILE_SIZE + 1) 'a'),
        isSaved := false } : EditorState).content > MAX_FILE_SIZE ∧
    (∀ s' : EditorState, s'.autoSaveEnabled = false →
      (step (Op.change "small" 5) s').autoSaveEnabled = false ∧
      ∀ ok : Bool, autoSaveLog ok s' = (s', [])) :=
  have hbig : blobSize ({ initState with
      content := String.mk (List.replicate (MAX_FILE_SIZE + 1) 'a'),
      isSaved := false } : EditorState).content > MAX_FILE_SIZE := by
    show blobSize (String.mk (List.replicate (MAX_FILE_SIZE + 1) 'a')) > MAX_FILE_SIZE
    rw [blobSize_replicate]
    exact Nat.lt_succ_self MAX_FILE_SIZE
  ⟨hbig,
    (oversize_autosave_sticky_disable _ true (Op.change "small" 5) hbig).2⟩

/-- C9: in every reachable settings state — reachable through the defaults,
reloading a previously persisted record at session start, the ControlPanel
slider and toggle mutations, and the filename updates of the file
operations — the numeric fields lie in their fixed ranges: font size between
12 and 24, and each margin at most 200 and a multiple of 4. -/
theorem settings_numeric_ranges (s : EditorSettings) (h : SettingsReachable s) :
    (12 ≤ s.fontSize ∧ s.fontSize ≤ 24) ∧
    (s.leftMargin ≤ 200 ∧ 4 ∣ s.leftMargin) ∧
    (s.rightMargin ≤ 200 ∧ 4 ∣ s.rightMargin) := by
  induction h with
  | init => refine ⟨⟨?_, ?_⟩, ⟨?_, ?_⟩, ⟨?_, ?_⟩⟩ <;> decide
  | load s hs ih => simpa [loadSettings] using ih
  | fontSize s v hs h12 h24 ih =>
    exact ⟨⟨h12, h24⟩, ih.2.1, ih.2.2⟩
  | themeToggle s hs ih => simpa using ih
  | wordCountToggle s hs ih => simpa using ih
  | countDisplayToggle s hs ih => simpa using ih
  | leftMargin s v hs hle hdvd ih =>
    exact ⟨ih.1, ⟨hle, hdvd⟩, ih.2.2⟩
  | rightMargin s v hs hle hdvd ih =>
    exact ⟨ih.1, ih.2.1, ⟨hle, hdvd⟩⟩
  | filename s name hs ih => simpa using ih

/-- Witness for C9: the ranges hold at the defaults, and at the state a
session start rebuilds from a persisted copy of the defaults. -/
theorem settings_numeric_ranges_witness :
    ((12 ≤ defaultSettings.fontSize ∧ defaultSettings.fontSize ≤ 24) ∧
      (defaultSettings.leftMargin ≤ 200 ∧ 4 ∣ defaultSettings.leftMargin) ∧
      (defaultSettings.rightMargin ≤ 200 ∧ 4 ∣ defaultSettings.rightMargin)) ∧
    ((12 ≤ (loadSettings defaultSettings).fontSize ∧
        (loadSettings defaultSettings).fontSize ≤ 24) ∧
      ((loadSettings defaultSettings).leftMargin ≤ 200 ∧
        4 ∣ (loadSettings defaultSettings).leftMargin) ∧
      ((loadSettings defaultSettings).rightMargin ≤ 200 ∧
        4 ∣ (loadSettings defaultSettings).rightMargin)) :=
  ⟨settings_numeric_ranges defaultSettings SettingsReachable.init,
   settings_numeric_ranges (loadSettings defaultSettings)
     (SettingsReachable.load defaultSettings SettingsReachable.init)⟩

/-- Text of the last mutation of a sequence, defaulting to the text already
in place. -/
def lastTxtFrom (d : String) : List MutEvent → String
  | [] => d
  | (_, txt, _) :: rest => lastTxtFrom txt rest

/-- Time of the last mutation of a sequence, defaulting to the time already
in place. -/
def lastTimeFrom (d : Nat) : List MutEvent → Nat
  | [] => d
  | (tm, _, _) :: rest => lastTimeFrom tm rest

/-- A timer firing on a dirty state with enabled autosave and in-range,
non-empty content performs exactly one store write of the current content,
marks the document saved, and leaves no timer pending. -/
theorem fireTimer_success (now : Nat) (t : TimedState)
    (hen : t.es.autoSaveEnabled = true) (hlen : ¬ t.es.content.length = 0)
    (hsize : ¬ blobSize t.es.content > MAX_FILE_SIZE)
    (hsvd : t.es.isSaved = false) :
    fireTimer now t =
      ({ es := { t.es with
            isAutoSaving := true
            store := some t.es.content
            isSaved := true }
         deadline := none }, [t.es.content]) := by
  have hp : autoSaveLog true t.es =
      ({ t.es with
          isAutoSaving := true
          store := some t.es.content
          isSaved := true }, [t.es.content]) := by
    simp [autoSaveLog, hen, hlen, hsize]
  have hne : ({ t.es with
      isAutoSaving := true
      store := some t.es.content
      isSaved := true } : EditorState) ≠ t.es := by
    intro heq
    have := congrArg EditorState.isSaved heq
    simp [hsvd] at this
  simp [fireTimer, hp, hne, armTimer]

/-- Invariant run of a well-formed mutation sequence: starting from a dirty
state whose pending deadline (if any) matches the previous mutation, no
timer fires during the sequence — no store write happens — and afterwards
the content is the last text, the state is still dirty, the store and the
enabled flag are untouched, and the deadline corresponds to the last
mutation (armed exactly when the last text is non-empty). -/
theorem runMuts_quiet (evs : List MutEvent) :
    ∀ (tPrev : Nat) (txtPrev : String) (t : TimedState),
    MutSeq tPrev txtPrev evs →
    t.es.content = txtPrev →
    t.es.isSaved = false →
    t.es.showWelcome = false →
    t.deadline =
      (if 0 < txtPrev.length then some (tPrev + AUTO_SAVE_DELAY) else none) →
    (runMuts evs t).2 = [] ∧
    (runMuts evs t).1.es.content = lastTxtFrom txtPrev evs ∧
    (runMuts evs t).1.es.isSaved = false ∧
    (runMuts evs t).1.es.showWelcome = false ∧
    (runMuts evs t).1.es.autoSaveEnabled = t.es.autoSaveEnabled ∧
    (runMuts evs t).1.es.store = t.es.store ∧
    (runMuts evs t).1.deadline =
      (if 0 < (lastTxtFrom txtPrev evs).length
       then some (lastTimeFrom tPrev evs + AUTO_SAVE_DELAY) else none) := by
  induction evs with
  | nil =>
    intro tPrev txtPrev t _ hc hsvd hw hdl
    exact ⟨rfl, hc, hsvd, hw, rfl, rfl, hdl⟩
  | cons ev rest ih =>
    obtain ⟨tm, txt, pos⟩ := ev
    intro tPrev txtPrev t hseq hc hsvd hw hdl
    obtain ⟨ht1, ht2, hne, hrest⟩ := hseq
    have hfire : maybeFire tm t = (t, []) := by
      by_cases hlen : 0 < txtPrev.length
      · rw [if_pos hlen] at hdl
        simp [maybeFire, hdl, Nat.not_le.mpr ht2]
      · rw [if_neg hlen] at hdl
        simp [maybeFire, hdl]
    have hes1 : handleChange txt pos t.es =
        { t.es with content := txt, cursorPosition := pos, isSaved := false } := by
      simp [handleChange, hw]
    have hneq : handleChange txt pos t.es ≠ t.es := by
      intro heq
      apply hne
      have hcc := congrArg EditorState.content heq
      rw [hes1] at hcc
      simpa [hc] using hcc
    have hmut : timedMutate tm txt pos t =
        armTimer tm { t with es := handleChange txt pos t.es } := by
      simp [timedMutate, hneq]
    have ht2es : (armTimer tm { t with es := handleChange txt pos t.es }).es =
        { t.es with content := txt, cursorPosition := pos, isSaved := false } := by
      rw [← hes1]
      simp [armTimer]
      split <;> rfl
    have ht2dl : (armTimer tm { t with es := handleChange txt pos t.es }).deadline =
        (if 0 < txt.length then some (tm + AUTO_SAVE_DELAY) else none) := by
      by_cases hl : 0 < txt.length <;> simp [armTimer, hes1, hl]
    have hrun : runMuts ((tm, txt, pos) :: rest) t =
        runMuts rest (armTimer tm { t with es := handleChange txt pos t.es }) := by
      simp [runMuts, hfire, hmut]
    obtain ⟨q1, q2, q3, q4, q5, q6, q7⟩ :=
      ih tm txt (armTimer tm { t with es := handleChange txt pos t.es }) hrest
        (by rw [ht2es]) (by rw [ht2es]) (by rw [ht2es]; exact hw) ht2dl
    rw [hrun]
    simp only [lastTxtFrom, lastTimeFrom]
    refine ⟨q1, q2, q3, q4, ?_, ?_, q7⟩
    · rw [q5, ht2es]
    · rw [q6, ht2es]

/-- C3: for every sequence of one or more document mutations in a fresh
session, each following the previous one by less than the debounce delay,
the run performs no store write while the mutations arrive (each arming
replaces the pending deadline, of which the state holds at most one), and
once the last timer fires exactly one store write happens, whose value is
the final content of the sequence; the document ends marked saved with no
timer pending.  (The final content is assumed non-empty and within the size
ceiling, as required for a save to write.) -/
theorem debounce_single_write (t0 : Nat) (txt0 : String) (pos0 : Nat)
    (rest : List MutEvent) (hseq : MutSeq t0 txt0 rest)
    (hlast : ¬ (lastTxtFrom txt0 rest).length = 0)
    (hsize : ¬ blobSize (lastTxtFrom txt0 rest) > MAX_FILE_SIZE) :
    (runMuts ((t0, txt0, pos0) :: rest) initTimed).2 ++
      (flushTimer (runMuts ((t0, txt0, pos0) :: rest) initTimed).1).2 =
      [lastTxtFrom txt0 rest] ∧
    (flushTimer (runMuts ((t0, txt0, pos0) :: rest) initTimed).1).1.es.store =
      some (lastTxtFrom txt0 rest) ∧
    (flushTimer (runMuts ((t0, txt0, pos0) :: rest) initTimed).1).1.es.isSaved
      = true ∧
    (flushTimer (runMuts ((t0, txt0, pos0) :: rest) initTimed).1).1.deadline
      = none := by
  have hfire : maybeFire t0 initTimed = (initTimed, []) := rfl
  have hes1 : handleChange txt0 pos0 initState =
      { initState with
          showWelcome := false
          welcomeText := ""
          content := txt0
          cursorPosition := pos0
          isSaved := false } := by
    simp [handleChange, initState]
  have hneq : handleChange txt0 pos0 initState ≠ initState := by
    intro heq
    have hsv := congrArg EditorState.isSaved heq
    rw [hes1] at hsv
    simp [initState] at hsv
  have hmut : timedMutate t0 txt0 pos0 initTimed =
      armTimer t0 { initTimed with es := handleChange txt0 pos0 initState } := by
    simp [timedMutate, initTimed, hneq]
  have ht2es :
      (armTimer t0 { initTimed with es := handleChange txt0 pos0 initState }).es =
      { initState with
          showWelcome := false
          welcomeText := ""
          content := txt0
          cursorPosition := pos0
          isSaved := false } := by
    rw [← hes1]
    simp [armTimer]
    split <;> rfl
  have ht2dl :
      (armTimer t0 { initTimed with es := handleChange txt0 pos0 initState }).deadline
      = (if 0 < txt0.length then some (t0 + AUTO_SAVE_DELAY) else none) := by
    by_cases hl : 0 < txt0.length <;> simp [armTimer, hes1, hl]
  have hrun : runMuts ((t0, txt0, pos0) :: rest) initTimed =
      runMuts rest (armTimer t0 { initTimed with es := handleChange txt0 pos0 initState }) := by
    simp [runMuts, hfire, hmut]
  obtain ⟨q1, q2, q3, q4, q5, q6, q7⟩ :=
    runMuts_quiet rest t0 txt0
      (armTimer t0 { initTimed with es := handleChange txt0 pos0 initState })
      hseq (by rw [ht2es]) (by rw [ht2es]) (by rw [ht2es]) ht2dl
  have hLpos : 0 < (lastTxtFrom txt0 rest).length := Nat.pos_of_ne_zero hlast
  rw [if_pos hLpos] at q7
  have hen :
      (runMuts rest (armTimer t0
        { initTimed with es := handleChange txt0 pos0 initState })).1.es.autoSaveEnabled
      = true := by
    rw [q5, ht2es]
    rfl
  have hflush :
      flushTimer (runMuts rest (armTimer t0
        { initTimed with es := handleChange txt0 pos0 initState })).1 =
      fireTimer (lastTimeFrom t0 rest + AUTO_SAVE_DELAY)
        (runMuts rest (armTimer t0
          { initTimed with es := handleChange txt0 pos0 initState })).1 := by
    simp [flushTimer, q7]
  have hfs := fireTimer_success (lastTimeFrom t0 rest + AUTO_SAVE_DELAY)
    (runMuts rest (armTimer t0
      { initTimed with es := handleChange txt0 pos0 initState })).1
    hen (by rw [q2]; exact hlast) (by rw [q2]; exact hsize) q3
  rw [hrun, hflush, hfs]
  refine ⟨?_, ?_, rfl, rfl⟩
  · rw [q1, q2]
    rfl
  · simp [q2]

/-- Witness for C3: three keystrokes at 0 ms, 1000 ms and 2500 ms produce
exactly one store write, of the final content. -/
theorem debounce_single_write_witness :
    MutSeq 0 "h" [(1000, "he", 2), (2500, "hel", 3)] ∧
    (runMuts ((0, "h", 1) :: [(1000, "he", 2), (2500, "hel", 3)]) initTimed).2 ++
      (flushTimer
        (runMuts ((0, "h", 1) :: [(1000, "he", 2), (2500, "hel", 3)]) initTimed).1).2
      = ["hel"] ∧
    (flushTimer
      (runMuts ((0, "h", 1) :: [(1000, "he", 2), (2500, "hel", 3)]) initTimed).1).1.es.store
      = some "hel" :=
  have h := debounce_single_write 0 "h" 1 [(1000, "he", 2), (2500, "hel", 3)]
    (by decide) (by decide) (by decide)
  ⟨by decide, h.1, h.2.1⟩

end TypeB
